import Mathlib

/-!
Verification development for the EV data-warehouse ETL script
(`src/q3/etl_script.py`).

The script is a single-pass, in-memory pandas pipeline:
raw table → cleaned table (missing-value imputation, categorical
encoding, derived fields) → four dimension tables + one fact table
(star schema) → SQLite warehouse.

Shallow embedding conventions:
* A table cell is a `Val`: `null` models pandas `NaN`/`None`, `s`
  a string cell, `n` a numeric cell.  Numeric cells are modelled by
  `ℚ` (exact rationals) rather than IEEE doubles; none of the
  verified properties depend on float rounding.
* A table is a `List` of row structures, in source order.
* `pd.merge(..., how='left')` is modelled by the standard
  left-join semantics pandas implements: each left row is paired
  with every right row whose join-key tuple is equal (pandas treats
  `NaN` join keys as equal to `NaN`, which `Val.null = Val.null`
  mirrors); a left row with no match yields one row with a null key.
* `datetime.now().year` is modelled as an explicit parameter `cy`.
-/

/-- A pandas cell: missing (`NaN`/`None`), a string, or a number. -/
inductive Val where
  | null : Val
  | s : String → Val
  | n : ℚ → Val
deriving DecidableEq

/-- Numeric value of a decimal digit character. -/
def digitVal (c : Char) : Nat := c.toNat - 48

/-- Value of a list of decimal digit characters, most significant first. -/
def digitsToNat (l : List Char) : Nat := l.foldl (fun a c => a * 10 + digitVal c) 0

/-!
Rational arithmetic on numerator/denominator normal forms.  The
standard `ℚ` field operations do not reduce inside the kernel, which
the concrete witness evaluations below need; these helpers compute the
same operations through `mkRat`, and each is proved equal to the
corresponding standard operation.
-/

/-- Rational addition, kernel-computable.  Equal to `a + b`
(`qAdd_eq`). -/
def qAdd (a b : ℚ) : ℚ := mkRat (a.num * b.den + b.num * a.den) (a.den * b.den)

/-- Rational multiplication, kernel-computable.  Equal to `a * b`
(`qMul_eq`). -/
def qMul (a b : ℚ) : ℚ := mkRat (a.num * b.num) (a.den * b.den)

/-- Rational inverse, kernel-computable.  Equal to `a⁻¹` (`qInv_eq`). -/
def qInv (a : ℚ) : ℚ := mkRat (Int.sign a.num * a.den) a.num.natAbs

/-- Rational division, kernel-computable.  Equal to `a / b`
(`qDiv_eq`). -/
def qDiv (a b : ℚ) : ℚ := qMul a (qInv b)

/-- Rational negation, kernel-computable.  Equal to `-a` (`qNeg_eq`). -/
def qNeg (a : ℚ) : ℚ := mkRat (-a.num) a.den

/-- `(10 : ℚ) ^ k`, kernel-computable (`qPow10_eq`). -/
def qPow10 (k : Nat) : ℚ := mkRat ((10 : Int) ^ k) 1

/-- Floor of a rational, kernel-computable.  Equal to `⌊a⌋`
(`qFloor_eq`). -/
def qFloor (a : ℚ) : Int := a.num / a.den

/-- Replace every (non-overlapping, leftmost-first) occurrence of `p` by
`r`, as Python `str.replace`.  The `fuel` argument bounds the recursion
depth; each step consumes at least one character, so fuel
`length + 1` is never exhausted (the source patterns are non-empty). -/
def replaceAllAux (p r : List Char) : Nat → List Char → List Char
  | 0, l => l
  | _ + 1, [] => []
  | fuel + 1, c :: cs =>
    if p.isPrefixOf (c :: cs) then r ++ replaceAllAux p r fuel ((c :: cs).drop p.length)
    else c :: replaceAllAux p r fuel cs

/-- Python `x.replace(pat, rep)` (all occurrences). -/
def replaceAll (x pat rep : String) : String :=
  String.mk (replaceAllAux pat.toList rep.toList (x.toList.length + 1) x.toList)

/-- Accumulator pass for Python `str.split()` with no argument:
split on runs of whitespace, discarding empty fields. -/
def pySplitAux : List Char → List Char → List String
  | [], acc => if acc.isEmpty then [] else [String.mk acc.reverse]
  | c :: cs, acc =>
    if c.isWhitespace then
      if acc.isEmpty then pySplitAux cs []
      else String.mk acc.reverse :: pySplitAux cs []
    else pySplitAux cs (c :: acc)

/-- Python `x.split()` (whitespace split, no empty fields). -/
def pySplit (x : String) : List String := pySplitAux x.toList []

/-- Python `float(tok)` on a whitespace-free token, restricted to the
decimal grammar `[sign] (digits [. digits] | . digits) [(e|E) [sign] digits]`.
Returns `none` where Python raises `ValueError`.  (Python additionally
accepts `inf`/`nan` spellings and digit-group underscores; those cannot
occur in this pipeline's coordinate tokens and are not modelled.) -/
def pyFloat (t : String) : Option ℚ :=
  let l := t.toList
  let isNeg : Bool := l.head? = some '-'
  let rest := if l.head? = some '-' ∨ l.head? = some '+' then l.drop 1 else l
  let ip := rest.takeWhile (·.isDigit)
  let rest1 := rest.dropWhile (·.isDigit)
  let fp : List Char := match rest1 with
    | '.' :: r => r.takeWhile (·.isDigit)
    | _ => []
  let rest2 : List Char := match rest1 with
    | '.' :: r => r.dropWhile (·.isDigit)
    | r => r
  if ip.isEmpty ∧ fp.isEmpty then none
  else
    let mag : ℚ := qAdd (digitsToNat ip : ℚ) (qDiv (digitsToNat fp : ℚ) (qPow10 fp.length))
    let mant : ℚ := if isNeg then qNeg mag else mag
    match rest2 with
    | [] => some mant
    | e :: r =>
      if e = 'e' ∨ e = 'E' then
        let eNeg : Bool := r.head? = some '-'
        let r1 := if r.head? = some '-' ∨ r.head? = some '+' then r.drop 1 else r
        let ed := r1.takeWhile (·.isDigit)
        let r2 := r1.dropWhile (·.isDigit)
        if ed.isEmpty ∨ ¬ r2.isEmpty then none
        else some (if eNeg then qDiv mant (qPow10 (digitsToNat ed))
          else qMul mant (qPow10 (digitsToNat ed)))
      else none

/-- Insert into a sorted list of rationals (ascending). -/
def insertSorted (q : ℚ) : List ℚ → List ℚ
  | [] => [q]
  | x :: xs => if q ≤ x then q :: x :: xs else x :: insertSorted q xs

/-- Insertion sort, ascending. -/
def sortRats : List ℚ → List ℚ
  | [] => []
  | x :: xs => insertSorted x (sortRats xs)

/-- Median as pandas `Series.median()` computes it over the non-missing
values: `none` on an empty list (pandas returns `NaN`); otherwise the
middle element of the sorted values, or the mean of the two middle
elements for an even count. -/
def medianOpt (l : List ℚ) : Option ℚ :=
  if l.length = 0 then none
  else
    let srt := sortRats l
    if l.length % 2 = 1 then some (srt.getD (l.length / 2) 0)
    else some (qDiv (qAdd (srt.getD (l.length / 2 - 1) 0) (srt.getD (l.length / 2) 0)) 2)

/-- One raw input row (`self.raw_data`), with the columns the pipeline
touches, in the source dataset's schema.  Every field is a loosely
typed pandas cell. -/
structure RawRow where
  vin : Val
  county : Val
  city : Val
  state : Val
  postalCode : Val
  modelYear : Val
  make : Val
  model : Val
  evType : Val
  cafvElig : Val
  electricRange : Val
  baseMSRP : Val
  legislativeDistrict : Val
  dolVehicleId : Val
  vehicleLocation : Val
  electricUtility : Val
  censusTract : Val
deriving DecidableEq

/-- One cleaned row: the raw columns after `_handle_missing_values`,
plus the columns added by `_encode_categorical_variables` and
`_create_derived_fields`. -/
structure CleanedRow where
  vin : Val
  county : Val
  city : Val
  state : Val
  postalCode : Val
  modelYear : Val
  make : Val
  model : Val
  evType : Val
  cafvElig : Val
  electricRange : Val
  baseMSRP : Val
  legislativeDistrict : Val
  dolVehicleId : Val
  vehicleLocation : Val
  electricUtility : Val
  censusTract : Val
  evTypeCode : Val
  cafvCode : Val
  modelDecade : Val
  yearCategory : Val
  vinHash : Val
deriving DecidableEq

/-- `fillna('Unknown')` on one cell. -/
def fillUnknown (v : Val) : Val :=
  if v = Val.null then Val.s "Unknown" else v

/-- `fillna(med)` on one `Electric Range` cell: when the column median is
`NaN` (no non-missing values), `fillna` is a no-op. -/
def fillMedian (med : Option ℚ) (v : Val) : Val :=
  match v, med with
  | Val.null, some m => Val.n m
  | Val.null, none => Val.null
  | w, _ => w

/-- `fillna(0)` on one `Base MSRP` cell. -/
def fillZero (v : Val) : Val :=
  if v = Val.null then Val.n 0 else v

/-- The non-missing numeric `Electric Range` values of the raw table,
over which the fill median is computed. -/
def rangeValues (raw : List RawRow) : List ℚ :=
  raw.filterMap fun r =>
    match r.electricRange with
    | Val.n q => some q
    | _ => none

/-- The `Electric Range` median used by `_handle_missing_values`. -/
def rangeMedian (raw : List RawRow) : Option ℚ := medianOpt (rangeValues raw)

/-- `_encode_categorical_variables`, EV-type half: the fixed mapping
(BEV↦1, PHEV↦2, Unknown↦0) followed by `fillna(0).astype(int)`, so any
unmapped or missing value ends at code 0. -/
def encodeEVType (v : Val) : Val :=
  if v = Val.s "Battery Electric Vehicle (BEV)" then Val.n 1
  else if v = Val.s "Plug-in Hybrid Electric Vehicle (PHEV)" then Val.n 2
  else Val.n 0

/-- `_encode_categorical_variables`, CAFV half: the fixed 4-entry mapping
followed by `fillna(0).astype(int)`. -/
def encodeCAFV (v : Val) : Val :=
  if v = Val.s "Clean Alternative Fuel Vehicle Eligible" then Val.n 1
  else if v = Val.s "Not eligible due to low battery range" then Val.n 2
  else if v = Val.s "Eligibility unknown as battery range has not been researched" then Val.n 3
  else Val.n 0

/-- `(Model Year // 10) * 10` on one cell (Python floor division;
`NaN` propagates). -/
def modelDecadeOf (v : Val) : Val :=
  match v with
  | Val.n q => Val.n (qMul ((qFloor (qDiv q 10) : Int) : ℚ) 10)
  | _ => Val.null

/-- `pd.cut(year, bins=[0, 2015, 2020, cy+1], labels=[...],
include_lowest=True)` on one cell: right-closed intervals
`[0,2015]`, `(2015,2020]`, `(2020, cy+1]`; values outside all bins
(and `NaN`) map to `NaN`. -/
def yearCategoryOf (cy : Int) (v : Val) : Val :=
  match v with
  | Val.n q =>
    if q < 0 then Val.null
    else if q ≤ 2015 then Val.s "Pre-2015"
    else if q ≤ 2020 then Val.s "2015-2020"
    else if q ≤ ((cy + 1 : Int) : ℚ) then Val.s "2021+"
    else Val.null
  | _ => Val.null

/-- Deterministic stand-in for `hashlib.md5(str(x)).hexdigest()[:10]`.
The verified properties never inspect hash values; they only need the
hash to be a fixed deterministic function of the cell, which md5 is. -/
def cellHash (v : Val) : String :=
  let rendered := match v with
    | Val.s x => x
    | Val.n q => String.append (toString q.num) (String.append "/" (toString q.den))
    | Val.null => "nan"
  let h := rendered.toList.foldl (fun a c => (a * 131 + c.toNat) % (2 ^ 64)) 5381
  String.mk ((Nat.toDigits 16 h).take 10)

/-- `VIN_Hash` of one cell: `'Unknown'` for a missing VIN, else the
truncated hash. -/
def vinHashOf (v : Val) : Val :=
  match v with
  | Val.null => Val.s "Unknown"
  | w => Val.s (cellHash w)

/-- One row of `clean_and_transform`: `_handle_missing_values` (fill the
seven categorical columns and the three geographic columns with
`'Unknown'`, `Electric Range` with the column median, `Base MSRP` with 0),
then `_encode_categorical_variables` on the filled strings, then
`_create_derived_fields` (`Model_Decade`, `Year_Category`, `VIN_Hash`).
`med` is the `Electric Range` median of the whole table and `cy` the
current year. -/
def cleanRow (cy : Int) (med : Option ℚ) (r : RawRow) : CleanedRow :=
  let evType' := fillUnknown r.evType
  let cafvElig' := fillUnknown r.cafvElig
  { vin := r.vin
    county := fillUnknown r.county
    city := fillUnknown r.city
    state := r.state
    postalCode := fillUnknown r.postalCode
    modelYear := r.modelYear
    make := fillUnknown r.make
    model := fillUnknown r.model
    evType := evType'
    cafvElig := cafvElig'
    electricRange := fillMedian med r.electricRange
    baseMSRP := fillZero r.baseMSRP
    legislativeDistrict := fillUnknown r.legislativeDistrict
    dolVehicleId := r.dolVehicleId
    vehicleLocation := r.vehicleLocation
    electricUtility := fillUnknown r.electricUtility
    censusTract := fillUnknown r.censusTract
    evTypeCode := encodeEVType evType'
    cafvCode := encodeCAFV cafvElig'
    modelDecade := modelDecadeOf r.modelYear
    yearCategory := yearCategoryOf cy r.modelYear
    vinHash := vinHashOf r.vin }

/-- `clean_and_transform`: row count is untouched, every row is cleaned
with the table-level `Electric Range` median. -/
def cleanAndTransformTable (cy : Int) (raw : List RawRow) : List CleanedRow :=
  raw.map (cleanRow cy (rangeMedian raw))

/-- The token list the location parser works on:
`value.replace('POINT (', '').replace(')', '').split()`. -/
def pointTokens (x : String) : List String :=
  pySplit (replaceAll (replaceAll x "POINT (" "") ")" "")

/-- The `try` block of `_create_location_dimension` on one string cell,
returning `(Longitude, Latitude)`.  The source assigns
`Longitude = float(coords[0])` before `Latitude = float(coords[1])`
inside one `try`, so when only the latitude token fails to convert the
longitude assignment has already happened; the bare `except: pass`
then leaves latitude `None`. -/
def parsePointStr (x : String) : Option ℚ × Option ℚ :=
  match pointTokens x with
  | [a, b] =>
    match pyFloat a, pyFloat b with
    | some lon, some lat => (some lon, some lat)
    | some lon, none => (some lon, none)
    | none, _ => (none, none)
  | _ => (none, none)

/-- `Vehicle Location` parsing on one cell: skipped (both `None`) for a
missing cell or the literal `'Unknown'`; a non-string cell makes the
`.replace` call raise inside the `try`, which is swallowed. -/
def parseVehicleLocation (v : Val) : Option ℚ × Option ℚ :=
  match v with
  | Val.s x => if x = "Unknown" then (none, none) else parsePointStr x
  | _ => (none, none)

/-- One `dim_location` row (`Vehicle Location` itself is projected out
after deduplication). -/
structure LocRow where
  locationId : Nat
  county : Val
  city : Val
  state : Val
  postalCode : Val
  legislativeDistrict : Val
  censusTract : Val
  latitude : Val
  longitude : Val
deriving DecidableEq

/-- One `dim_vehicle` row. -/
structure VehRow where
  vehicleId : Nat
  make : Val
  model : Val
  evType : Val
  cafvElig : Val
  evTypeCode : Val
  cafvCode : Val
deriving DecidableEq

/-- One `dim_utility` row. -/
structure UtilRow where
  utilityId : Nat
  electricUtility : Val
deriving DecidableEq

/-- One `dim_time` row. -/
structure TimeRow where
  timeId : Nat
  modelYear : Val
  modelDecade : Val
  yearCategory : Val
deriving DecidableEq

/-- `drop_duplicates()` keeping first occurrences, on a key projection;
`seen` accumulates the keys already emitted. -/
def dedupByAux {α κ : Type} [DecidableEq κ] (key : α → κ) : List κ → List α → List α
  | _, [] => []
  | seen, x :: xs =>
    if key x ∈ seen then dedupByAux key seen xs
    else x :: dedupByAux key (key x :: seen) xs

/-- `drop_duplicates()` keeping first occurrences, on a key projection. -/
def dedupBy {α κ : Type} [DecidableEq κ] (key : α → κ) (l : List α) : List α :=
  dedupByAux key [] l

/-- Stepping-stone instance: default instance search does not nest
`Prod` equality deep enough for the seven-column location key. -/
instance : DecidableEq (Val × Val × Val × Val × Val × Val) :=
  fun a b => instDecidableEqProd a b

/-- Equality of the seven-column location key is decidable. -/
instance : DecidableEq ((Val × Val × Val × Val × Val × Val) × Val) :=
  fun a b => instDecidableEqProd a b

/-- The six columns the fact builder joins `dim_location` on. -/
def locKey6 (c : CleanedRow) : Val × Val × Val × Val × Val × Val :=
  (c.county, c.city, c.state, c.postalCode, c.legislativeDistrict, c.censusTract)

/-- The seven columns `_create_location_dimension` deduplicates on
(note: `Vehicle Location` is included here but **not** in the fact
join key). -/
def locKey7 (c : CleanedRow) : (Val × Val × Val × Val × Val × Val) × Val :=
  (locKey6 c, c.vehicleLocation)

/-- The natural-key columns of a `dim_location` row, as joined on. -/
def locRowKey6 (d : LocRow) : Val × Val × Val × Val × Val × Val :=
  (d.county, d.city, d.state, d.postalCode, d.legislativeDistrict, d.censusTract)

/-- Assign `location_id = n, n+1, ...` down the deduplicated rows and
parse coordinates, as `_create_location_dimension` does per row. -/
def locAssign (n : Nat) : List CleanedRow → List LocRow
  | [] => []
  | c :: cs =>
    { locationId := n
      county := c.county
      city := c.city
      state := c.state
      postalCode := c.postalCode
      legislativeDistrict := c.legislativeDistrict
      censusTract := c.censusTract
      latitude := match (parseVehicleLocation c.vehicleLocation).2 with
        | some q => Val.n q
        | none => Val.null
      longitude := match (parseVehicleLocation c.vehicleLocation).1 with
        | some q => Val.n q
        | none => Val.null } :: locAssign (n + 1) cs

/-- `_create_location_dimension`: deduplicate the cleaned table on the
seven location columns (including `Vehicle Location`), parse
coordinates, assign ids from 1, and project `Vehicle Location` out. -/
def createLocationDimension (cl : List CleanedRow) : List LocRow :=
  locAssign 1 (dedupBy locKey7 cl)

/-- The six vehicle natural-key columns (dedup key = join key). -/
def vehKey (c : CleanedRow) : Val × Val × Val × Val × Val × Val :=
  (c.make, c.model, c.evType, c.cafvElig, c.evTypeCode, c.cafvCode)

/-- The natural-key columns of a `dim_vehicle` row. -/
def vehRowKey (d : VehRow) : Val × Val × Val × Val × Val × Val :=
  (d.make, d.model, d.evType, d.cafvElig, d.evTypeCode, d.cafvCode)

/-- Assign `vehicle_id = n, n+1, ...` down the deduplicated rows. -/
def vehAssign (n : Nat) : List CleanedRow → List VehRow
  | [] => []
  | c :: cs =>
    { vehicleId := n, make := c.make, model := c.model, evType := c.evType,
      cafvElig := c.cafvElig, evTypeCode := c.evTypeCode, cafvCode := c.cafvCode }
      :: vehAssign (n + 1) cs

/-- `_create_vehicle_dimension`. -/
def createVehicleDimension (cl : List CleanedRow) : List VehRow :=
  vehAssign 1 (dedupBy vehKey cl)

/-- Assign `utility_id = n, n+1, ...` down the deduplicated rows. -/
def utilAssign (n : Nat) : List CleanedRow → List UtilRow
  | [] => []
  | c :: cs => { utilityId := n, electricUtility := c.electricUtility } :: utilAssign (n + 1) cs

/-- `_create_utility_dimension`. -/
def createUtilityDimension (cl : List CleanedRow) : List UtilRow :=
  utilAssign 1 (dedupBy (fun c => c.electricUtility) cl)

/-- The three time natural-key columns (dedup key = join key). -/
def timeKey (c : CleanedRow) : Val × Val × Val :=
  (c.modelYear, c.modelDecade, c.yearCategory)

/-- The natural-key columns of a `dim_time` row. -/
def timeRowKey (d : TimeRow) : Val × Val × Val :=
  (d.modelYear, d.modelDecade, d.yearCategory)

/-- Assign `time_id = n, n+1, ...` down the deduplicated rows. -/
def timeAssign (n : Nat) : List CleanedRow → List TimeRow
  | [] => []
  | c :: cs =>
    { timeId := n, modelYear := c.modelYear, modelDecade := c.modelDecade,
      yearCategory := c.yearCategory } :: timeAssign (n + 1) cs

/-- `_create_time_dimension`. -/
def createTimeDimension (cl : List CleanedRow) : List TimeRow :=
  timeAssign 1 (dedupBy timeKey cl)

/-- The `self.dimension_tables` dict once `create_dimensional_model`
has populated all four entries. -/
structure DimTables where
  dimLocation : List LocRow
  dimVehicle : List VehRow
  dimUtility : List UtilRow
  dimTime : List TimeRow
deriving DecidableEq

/-- `create_dimensional_model`, dimension half. -/
def buildDimTables (cl : List CleanedRow) : DimTables :=
  { dimLocation := createLocationDimension cl
    dimVehicle := createVehicleDimension cl
    dimUtility := createUtilityDimension cl
    dimTime := createTimeDimension cl }

/-- A fact row before `registration_id` assignment: the four surrogate
keys picked up by the left joins (null when a join found no match) and
the projected measure/identifier columns. -/
structure FactCore where
  locationId : Option Nat
  vehicleId : Option Nat
  utilityId : Option Nat
  timeId : Option Nat
  baseMSRP : Val
  electricRange : Val
  dolVehicleId : Val
  vinHash : Val
deriving DecidableEq

/-- A `fact_vehicle_registration` row. -/
structure FactRow where
  registrationId : Nat
  locationId : Option Nat
  vehicleId : Option Nat
  utilityId : Option Nat
  timeId : Option Nat
  baseMSRP : Val
  electricRange : Val
  dolVehicleId : Val
  vinHash : Val
deriving DecidableEq

/-- Left-join semantics for the id column one merge contributes to one
left row: every matching right id, or a single null when nothing
matches. -/
def matchIds (ids : List Nat) : List (Option Nat) :=
  if ids = [] then [none] else ids.map some

/-- The `location_id`s of the `dim_location` rows matching a cleaned
row on the six-column join key. -/
def locMatches (dt : DimTables) (c : CleanedRow) : List Nat :=
  (dt.dimLocation.filter fun d => decide (locRowKey6 d = locKey6 c)).map
    fun d => d.locationId

/-- The `vehicle_id`s matching a cleaned row. -/
def vehMatches (dt : DimTables) (c : CleanedRow) : List Nat :=
  (dt.dimVehicle.filter fun d => decide (vehRowKey d = vehKey c)).map
    fun d => d.vehicleId

/-- The `utility_id`s matching a cleaned row. -/
def utilMatches (dt : DimTables) (c : CleanedRow) : List Nat :=
  (dt.dimUtility.filter fun d => decide (d.electricUtility = c.electricUtility)).map
    fun d => d.utilityId

/-- The `time_id`s matching a cleaned row. -/
def timeMatches (dt : DimTables) (c : CleanedRow) : List Nat :=
  (dt.dimTime.filter fun d => decide (timeRowKey d = timeKey c)).map
    fun d => d.timeId

/-- `_create_fact_table` before `registration_id` assignment: the chain
of four left merges (location, vehicle, utility, time, in source
order), then the projection to the fact columns.  A left merge pairs
each left row with every matching right row, so multiplicities
multiply across the four joins. -/
def factCores (cl : List CleanedRow) (dt : DimTables) : List FactCore :=
  cl.flatMap fun c =>
    (matchIds (locMatches dt c)).flatMap fun lid =>
      (matchIds (vehMatches dt c)).flatMap fun vid =>
        (matchIds (utilMatches dt c)).flatMap fun uid =>
          (matchIds (timeMatches dt c)).map fun tid =>
            { locationId := lid, vehicleId := vid, utilityId := uid, timeId := tid,
              baseMSRP := c.baseMSRP, electricRange := c.electricRange,
              dolVehicleId := c.dolVehicleId, vinHash := c.vinHash }

/-- Assign `registration_id = n, n+1, ...` down the joined rows. -/
def factAssign (n : Nat) : List FactCore → List FactRow
  | [] => []
  | f :: fs =>
    { registrationId := n, locationId := f.locationId, vehicleId := f.vehicleId,
      utilityId := f.utilityId, timeId := f.timeId, baseMSRP := f.baseMSRP,
      electricRange := f.electricRange, dolVehicleId := f.dolVehicleId,
      vinHash := f.vinHash } :: factAssign (n + 1) fs

/-- `_create_fact_table`. -/
def createFactTable (cl : List CleanedRow) (dt : DimTables) : List FactRow :=
  factAssign 1 (factCores cl dt)

/-- The retention percentage printed by `generate_summary_report`:
`len(cleaned) / len(raw) * 100`.  Python `/` raises
`ZeroDivisionError` on an empty raw table, modelled by `none`. -/
def retentionPct (raw : List RawRow) (cl : List CleanedRow) : Option ℚ :=
  if raw.length = 0 then none
  else some (qMul (qDiv (cl.length : ℚ) (raw.length : ℚ)) 100)

/-- A table as stored in SQLite: rows of cells in schema order. -/
def StoredTable : Type := List (List Val)

/-- The warehouse (`ev_data_warehouse.db`): a mapping from table name
to stored table. -/
def Warehouse : Type := String → Option StoredTable

/-- Surrogate-key cell (SQLite stores the integer id). -/
def idCell (n : Nat) : Val := Val.n (n : ℚ)

/-- Foreign-key cell: `NULL` when the left join found no match. -/
def fkCell (o : Option Nat) : Val :=
  match o with
  | some n => Val.n (n : ℚ)
  | none => Val.null

/-- A `dim_location` row in stored column order. -/
def locCells (d : LocRow) : List Val :=
  [idCell d.locationId, d.county, d.city, d.state, d.postalCode,
    d.legislativeDistrict, d.censusTract, d.latitude, d.longitude]

/-- A `dim_vehicle` row in stored column order. -/
def vehCells (d : VehRow) : List Val :=
  [idCell d.vehicleId, d.make, d.model, d.evType, d.cafvElig, d.evTypeCode, d.cafvCode]

/-- A `dim_utility` row in stored column order. -/
def utilCells (d : UtilRow) : List Val :=
  [idCell d.utilityId, d.electricUtility]

/-- A `dim_time` row in stored column order. -/
def timeCells (d : TimeRow) : List Val :=
  [idCell d.timeId, d.modelYear, d.modelDecade, d.yearCategory]

/-- A `fact_vehicle_registration` row in stored column order. -/
def factCells (f : FactRow) : List Val :=
  [idCell f.registrationId, fkCell f.locationId, fkCell f.vehicleId,
    fkCell f.utilityId, fkCell f.timeId, f.baseMSRP, f.electricRange,
    f.dolVehicleId, f.vinHash]

/-- `load_to_warehouse`: each `to_sql(..., if_exists='replace')` call
replaces the table of that name; every other table in the store is
untouched.  Index creation does not change table contents. -/
def loadToWarehouse (dt : DimTables) (fact : List FactRow) (w : Warehouse) : Warehouse :=
  fun name =>
    if name = "dim_location" then some (dt.dimLocation.map locCells)
    else if name = "dim_vehicle" then some (dt.dimVehicle.map vehCells)
    else if name = "dim_utility" then some (dt.dimUtility.map utilCells)
    else if name = "dim_time" then some (dt.dimTime.map timeCells)
    else if name = "fact_vehicle_registration" then some (fact.map factCells)
    else w name

/-- One full pipeline run (`main` after extraction) against a fixed raw
table, applied to an existing warehouse state:
clean → build dimensional model → load. -/
def runPipeline (cy : Int) (raw : List RawRow) (w : Warehouse) : Warehouse :=
  loadToWarehouse
    (buildDimTables (cleanAndTransformTable cy raw))
    (createFactTable (cleanAndTransformTable cy raw)
      (buildDimTables (cleanAndTransformTable cy raw)))
    w

/-- The spec's error taxonomy.  The source raises `ValueError` with the
message below for each out-of-order stage call; the spec names these
`StateError`. -/
inductive ETLError where
  | stateError (msg : String) : ETLError
  | extractionError (msg : String) : ETLError
  | persistenceError (msg : String) : ETLError
deriving DecidableEq

/-- The mutable state of the `EVDataETL` object.  `dimensionTables`
models the `self.dimension_tables` dict: `none` is the initial empty
dict, `some` the fully populated four-table dict (the dict is only
ever populated by a complete `create_dimensional_model` run). -/
structure ETLState where
  rawData : Option (List RawRow)
  cleanedData : Option (List CleanedRow)
  dimensionTables : Option DimTables
  factTable : Option (List FactRow)
deriving DecidableEq

/-- The freshly constructed `EVDataETL` object. -/
def initialETLState : ETLState :=
  { rawData := none, cleanedData := none, dimensionTables := none, factTable := none }

/-- `clean_and_transform` as a state transition: the prerequisite check
(`raw_data is None`) happens before any mutation, so a failing call
raises and leaves the object unchanged. -/
def cleanAndTransformStep (cy : Int) (st : ETLState) : ETLState × Option ETLError :=
  match st.rawData with
  | none =>
    (st, some (ETLError.stateError "No raw data available. Please extract data first."))
  | some raw =>
    ({ st with cleanedData := some (cleanAndTransformTable cy raw) }, none)

/-- `create_dimensional_model` as a state transition: the prerequisite
check (`cleaned_data is None`) happens before any mutation. -/
def createDimensionalModelStep (st : ETLState) : ETLState × Option ETLError :=
  match st.cleanedData with
  | none =>
    (st, some (ETLError.stateError "No cleaned data available. Please clean data first."))
  | some cl =>
    let dt := buildDimTables cl
    ({ st with dimensionTables := some dt, factTable := some (createFactTable cl dt) }, none)

/-- `load_to_warehouse` as a transition on the store: the prerequisite
check (`not self.dimension_tables or self.fact_table is None`) happens
before the connection is opened, so a failing call raises and leaves
both the object and the store unchanged. -/
def loadToWarehouseStep (st : ETLState) (w : Warehouse) : Warehouse × Option ETLError :=
  match st.dimensionTables, st.factTable with
  | some dt, some ft => (loadToWarehouse dt ft w, none)
  | _, _ =>
    (w, some (ETLError.stateError
      "No dimensional model available. Please create dimensional model first."))

/-- An empty store. -/
def emptyWarehouse : Warehouse := fun _ => none

/-- A raw row whose cells are all missing, used as the base of the
concrete fixtures below. -/
def blankRawRow : RawRow :=
  { vin := Val.null, county := Val.null, city := Val.null, state := Val.null,
    postalCode := Val.null, modelYear := Val.null, make := Val.null, model := Val.null,
    evType := Val.null, cafvElig := Val.null, electricRange := Val.null,
    baseMSRP := Val.null, legislativeDistrict := Val.null, dolVehicleId := Val.null,
    vehicleLocation := Val.null, electricUtility := Val.null, censusTract := Val.null }

/-- Fixture row 1 of the spec's sample scenario:
year 2020, range 150, msrp 40000, type BEV. -/
def evFixRow1 : RawRow :=
  { blankRawRow with
    modelYear := Val.n 2020
    electricRange := Val.n 150
    baseMSRP := Val.n 40000
    evType := Val.s "Battery Electric Vehicle (BEV)" }

/-- Fixture row 2: year 2020, range/msrp/type all missing. -/
def evFixRow2 : RawRow :=
  { blankRawRow with modelYear := Val.n 2020 }

/-- Fixture row 3: year 2010, range 60, msrp 0, type PHEV. -/
def evFixRow3 : RawRow :=
  { blankRawRow with
    modelYear := Val.n 2010
    electricRange := Val.n 60
    baseMSRP := Val.n 0
    evType := Val.s "Plug-in Hybrid Electric Vehicle (PHEV)" }

/-- The spec's three-row sample scenario. -/
def evFixture : List RawRow := [evFixRow1, evFixRow2, evFixRow3]

/-- Two raw rows identical on the six location join columns but with
different `Vehicle Location` strings: the input on which the location
join fans out. -/
def fanRow1 : RawRow := { blankRawRow with vehicleLocation := Val.s "POINT (1 2)" }

/-- Second fan-out row, differing only in `Vehicle Location`. -/
def fanRow2 : RawRow := { blankRawRow with vehicleLocation := Val.s "POINT (3 4)" }

/-- The fan-out input table. -/
def fanFixture : List RawRow := [fanRow1, fanRow2]

/-- A one-row table with the given model year, for the year-category
boundary checks. -/
def yearRow (y : ℚ) : RawRow := { blankRawRow with modelYear := Val.n y }

/-- An all-null fact row, used only as the default of `List.getD` when
picking a concrete fact row out of a concrete table. -/
def placeholderFactRow : FactRow :=
  { registrationId := 0, locationId := none, vehicleId := none, utilityId := none,
    timeId := none, baseMSRP := Val.null, electricRange := Val.null,
    dolVehicleId := Val.null, vinHash := Val.null }

/-!
Shared lemmas about the embedded operations.
-/

/-- `qAdd` is rational addition. -/
theorem qAdd_eq (a b : ℚ) : qAdd a b = a + b := by
  rw [qAdd, Rat.mkRat_eq_divInt]
  push_cast
  rw [← Rat.divInt_add_divInt _ _ (by exact_mod_cast a.den_nz) (by exact_mod_cast b.den_nz),
    Rat.num_divInt_den, Rat.num_divInt_den]

/-- `qMul` is rational multiplication. -/
theorem qMul_eq (a b : ℚ) : qMul a b = a * b := by
  rw [qMul, Rat.mkRat_eq_divInt]
  push_cast
  rw [← Rat.divInt_mul_divInt' , Rat.num_divInt_den, Rat.num_divInt_den]

/-- `qInv` is rational inverse. -/
theorem qInv_eq (a : ℚ) : qInv a = a⁻¹ := by
  rcases lt_trichotomy a.num 0 with h | h | h
  · rw [qInv, Int.sign_eq_neg_one_of_neg h, Rat.mkRat_eq_divInt,
      Int.ofNat_natAbs_of_nonpos (le_of_lt h), Rat.inv_def']
    rw [show (-1 : ℤ) * a.den = -(a.den : ℤ) by ring, Rat.divInt_neg, neg_neg]
  · rw [qInv, h, Rat.inv_def', h]
    simp [Rat.mkRat_eq_divInt]
  · rw [qInv, Int.sign_eq_one_of_pos h, Rat.mkRat_eq_divInt,
      Int.natAbs_of_nonneg (le_of_lt h), Rat.inv_def']
    rw [one_mul]

/-- `qDiv` is rational division. -/
theorem qDiv_eq (a b : ℚ) : qDiv a b = a / b := by
  rw [qDiv, qMul_eq, qInv_eq, div_eq_mul_inv]

/-- `qNeg` is rational negation. -/
theorem qNeg_eq (a : ℚ) : qNeg a = -a := by
  rw [qNeg, Rat.mkRat_eq_divInt, ← Rat.neg_divInt, Rat.num_divInt_den]

/-- `qPow10` is the power of ten. -/
theorem qPow10_eq (k : Nat) : qPow10 k = (10 : ℚ) ^ k := by
  rw [qPow10, Rat.mkRat_one]
  push_cast
  rfl

/-- `qFloor` is the floor. -/
theorem qFloor_eq (a : ℚ) : qFloor a = ⌊a⌋ := by
  rw [qFloor, Rat.floor_def]

/-- `fillUnknown` never leaves a missing cell. -/
theorem fillUnknown_ne_null (v : Val) : fillUnknown v ≠ Val.null := by
  unfold fillUnknown
  split_ifs with h
  · exact fun hx => Val.noConfusion hx
  · exact h

/-- A missing cell is filled with the literal placeholder. -/
theorem fillUnknown_null : fillUnknown Val.null = Val.s "Unknown" := rfl

/-- A non-missing cell is untouched by `fillUnknown`. -/
theorem fillUnknown_of_ne_null (v : Val) (h : v ≠ Val.null) : fillUnknown v = v := by
  unfold fillUnknown
  exact if_neg h

/-- The EV-type code is always one of 0, 1, 2. -/
theorem encodeEVType_mem (v : Val) :
    encodeEVType v = Val.n 0 ∨ encodeEVType v = Val.n 1 ∨ encodeEVType v = Val.n 2 := by
  unfold encodeEVType
  split_ifs
  · exact Or.inr (Or.inl rfl)
  · exact Or.inr (Or.inr rfl)
  · exact Or.inl rfl

/-- The CAFV code is always one of 0, 1, 2, 3. -/
theorem encodeCAFV_mem (v : Val) :
    encodeCAFV v = Val.n 0 ∨ encodeCAFV v = Val.n 1 ∨ encodeCAFV v = Val.n 2 ∨
      encodeCAFV v = Val.n 3 := by
  unfold encodeCAFV
  split_ifs
  · exact Or.inr (Or.inl rfl)
  · exact Or.inr (Or.inr (Or.inl rfl))
  · exact Or.inr (Or.inr (Or.inr rfl))
  · exact Or.inl rfl

/-- Any value outside the two non-zero entries of the EV-type lookup
encodes to code 0 (`map` produces `NaN` there, and `fillna(0)` turns it
into 0; the explicit `'Unknown'` entry is itself 0). -/
theorem encodeEVType_default (v : Val)
    (h1 : v ≠ Val.s "Battery Electric Vehicle (BEV)")
    (h2 : v ≠ Val.s "Plug-in Hybrid Electric Vehicle (PHEV)") :
    encodeEVType v = Val.n 0 := by
  unfold encodeEVType
  rw [if_neg h1, if_neg h2]

/-- Any value outside the three non-zero entries of the CAFV lookup
encodes to code 0. -/
theorem encodeCAFV_default (v : Val)
    (h1 : v ≠ Val.s "Clean Alternative Fuel Vehicle Eligible")
    (h2 : v ≠ Val.s "Not eligible due to low battery range")
    (h3 : v ≠ Val.s "Eligibility unknown as battery range has not been researched") :
    encodeCAFV v = Val.n 0 := by
  unfold encodeCAFV
  rw [if_neg h1, if_neg h2, if_neg h3]

/-- Every key of the input list survives deduplication, unless it was
already in the `seen` accumulator. -/
theorem dedupByAux_key_mem {α κ : Type} [DecidableEq κ] (key : α → κ) :
    ∀ (seen : List κ) (l : List α) (a : α), a ∈ l →
      key a ∈ seen ∨ ∃ b ∈ dedupByAux key seen l, key b = key a := by
  intro seen l
  induction l generalizing seen with
  | nil => intro a ha; cases ha
  | cons x xs ih =>
    intro a ha
    unfold dedupByAux
    by_cases hx : key x ∈ seen
    · rw [if_pos hx]
      rcases List.mem_cons.mp ha with rfl | ha'
      · exact Or.inl hx
      · exact ih seen a ha'
    · rw [if_neg hx]
      rcases List.mem_cons.mp ha with rfl | ha'
      · exact Or.inr ⟨_, List.mem_cons_self _ _, rfl⟩
      · rcases ih (key x :: seen) a ha' with hin | ⟨b, hb, hkey⟩
        · rcases List.mem_cons.mp hin with heq | hseen
          · exact Or.inr ⟨x, List.mem_cons_self x _, heq.symm⟩
          · exact Or.inl hseen
        · exact Or.inr ⟨b, List.mem_cons_of_mem x hb, hkey⟩

/-- Every key of the input list is represented in the deduplicated
list. -/
theorem dedupBy_key_mem {α κ : Type} [DecidableEq κ] (key : α → κ) {l : List α} {a : α}
    (ha : a ∈ l) : ∃ b ∈ dedupBy key l, key b = key a := by
  rcases dedupByAux_key_mem key [] l a ha with h | h
  · cases h
  · exact h

/-- Each deduplicated location row appears in the assigned dimension
with its six-column natural key intact. -/
theorem locAssign_key_mem :
    ∀ (n : Nat) (ds : List CleanedRow) (c : CleanedRow), c ∈ ds →
      ∃ d ∈ locAssign n ds, locRowKey6 d = locKey6 c := by
  intro n ds
  induction ds generalizing n with
  | nil => intro c hc; cases hc
  | cons x xs ih =>
    intro c hc
    rcases List.mem_cons.mp hc with rfl | hc'
    · exact ⟨_, List.mem_cons_self _ _, rfl⟩
    · rcases ih (n + 1) c hc' with ⟨d, hd, hk⟩
      exact ⟨d, List.mem_cons_of_mem _ hd, hk⟩

/-- Each deduplicated vehicle row appears in the assigned dimension
with its natural key intact. -/
theorem vehAssign_key_mem :
    ∀ (n : Nat) (ds : List CleanedRow) (c : CleanedRow), c ∈ ds →
      ∃ d ∈ vehAssign n ds, vehRowKey d = vehKey c := by
  intro n ds
  induction ds generalizing n with
  | nil => intro c hc; cases hc
  | cons x xs ih =>
    intro c hc
    rcases List.mem_cons.mp hc with rfl | hc'
    · exact ⟨_, List.mem_cons_self _ _, rfl⟩
    · rcases ih (n + 1) c hc' with ⟨d, hd, hk⟩
      exact ⟨d, List.mem_cons_of_mem _ hd, hk⟩

/-- Each deduplicated utility row appears in the assigned dimension
with its natural key intact. -/
theorem utilAssign_key_mem :
    ∀ (n : Nat) (ds : List CleanedRow) (c : CleanedRow), c ∈ ds →
      ∃ d ∈ utilAssign n ds, d.electricUtility = c.electricUtility := by
  intro n ds
  induction ds generalizing n with
  | nil => intro c hc; cases hc
  | cons x xs ih =>
    intro c hc
    rcases List.mem_cons.mp hc with rfl | hc'
    · exact ⟨_, List.mem_cons_self _ _, rfl⟩
    · rcases ih (n + 1) c hc' with ⟨d, hd, hk⟩
      exact ⟨d, List.mem_cons_of_mem _ hd, hk⟩

/-- Each deduplicated time row appears in the assigned dimension with
its natural key intact. -/
theorem timeAssign_key_mem :
    ∀ (n : Nat) (ds : List CleanedRow) (c : CleanedRow), c ∈ ds →
      ∃ d ∈ timeAssign n ds, timeRowKey d = timeKey c := by
  intro n ds
  induction ds generalizing n with
  | nil => intro c hc; cases hc
  | cons x xs ih =>
    intro c hc
    rcases List.mem_cons.mp hc with rfl | hc'
    · exact ⟨_, List.mem_cons_self _ _, rfl⟩
    · rcases ih (n + 1) c hc' with ⟨d, hd, hk⟩
      exact ⟨d, List.mem_cons_of_mem _ hd, hk⟩

/-- Every cleaned row finds a `dim_location` row matching its
six-column join key: its full seven-column combination survives
deduplication, and the six join columns are a projection of it. -/
theorem createLocationDimension_match (cl : List CleanedRow) (c : CleanedRow)
    (hc : c ∈ cl) : ∃ d ∈ createLocationDimension cl, locRowKey6 d = locKey6 c := by
  rcases dedupBy_key_mem locKey7 hc with ⟨b, hb, hkey⟩
  have h6 : locKey6 b = locKey6 c := congrArg Prod.fst hkey
  rcases locAssign_key_mem 1 _ b hb with ⟨d, hd, hd6⟩
  exact ⟨d, hd, hd6.trans h6⟩

/-- Every cleaned row finds a `dim_vehicle` row matching its join key. -/
theorem createVehicleDimension_match (cl : List CleanedRow) (c : CleanedRow)
    (hc : c ∈ cl) : ∃ d ∈ createVehicleDimension cl, vehRowKey d = vehKey c := by
  rcases dedupBy_key_mem vehKey hc with ⟨b, hb, hkey⟩
  rcases vehAssign_key_mem 1 _ b hb with ⟨d, hd, hdk⟩
  exact ⟨d, hd, hdk.trans hkey⟩

/-- Every cleaned row finds a `dim_utility` row matching its join key. -/
theorem createUtilityDimension_match (cl : List CleanedRow) (c : CleanedRow)
    (hc : c ∈ cl) :
    ∃ d ∈ createUtilityDimension cl, d.electricUtility = c.electricUtility := by
  rcases dedupBy_key_mem (fun c => c.electricUtility) hc with ⟨b, hb, hkey⟩
  rcases utilAssign_key_mem 1 _ b hb with ⟨d, hd, hdk⟩
  exact ⟨d, hd, hdk.trans hkey⟩

/-- Every cleaned row finds a `dim_time` row matching its join key. -/
theorem createTimeDimension_match (cl : List CleanedRow) (c : CleanedRow)
    (hc : c ∈ cl) : ∃ d ∈ createTimeDimension cl, timeRowKey d = timeKey c := by
  rcases dedupBy_key_mem timeKey hc with ⟨b, hb, hkey⟩
  rcases timeAssign_key_mem 1 _ b hb with ⟨d, hd, hdk⟩
  exact ⟨d, hd, hdk.trans hkey⟩

/-- The location join of a cleaned row of the table never comes back
empty. -/
theorem locMatches_ne_nil (cl : List CleanedRow) (c : CleanedRow) (hc : c ∈ cl) :
    locMatches (buildDimTables cl) c ≠ [] := by
  rcases createLocationDimension_match cl c hc with ⟨d, hd, hk⟩
  refine List.ne_nil_of_mem (a := d.locationId) ?_
  refine List.mem_map_of_mem _ ?_
  exact List.mem_filter.mpr ⟨hd, by simp [hk]⟩

/-- The vehicle join of a cleaned row of the table never comes back
empty. -/
theorem vehMatches_ne_nil (cl : List CleanedRow) (c : CleanedRow) (hc : c ∈ cl) :
    vehMatches (buildDimTables cl) c ≠ [] := by
  rcases createVehicleDimension_match cl c hc with ⟨d, hd, hk⟩
  refine List.ne_nil_of_mem (a := d.vehicleId) ?_
  refine List.mem_map_of_mem _ ?_
  exact List.mem_filter.mpr ⟨hd, by simp [hk]⟩

/-- The utility join of a cleaned row of the table never comes back
empty. -/
theorem utilMatches_ne_nil (cl : List CleanedRow) (c : CleanedRow) (hc : c ∈ cl) :
    utilMatches (buildDimTables cl) c ≠ [] := by
  rcases createUtilityDimension_match cl c hc with ⟨d, hd, hk⟩
  refine List.ne_nil_of_mem (a := d.utilityId) ?_
  refine List.mem_map_of_mem _ ?_
  exact List.mem_filter.mpr ⟨hd, by simp [hk]⟩

/-- The time join of a cleaned row of the table never comes back
empty. -/
theorem timeMatches_ne_nil (cl : List CleanedRow) (c : CleanedRow) (hc : c ∈ cl) :
    timeMatches (buildDimTables cl) c ≠ [] := by
  rcases createTimeDimension_match cl c hc with ⟨d, hd, hk⟩
  refine List.ne_nil_of_mem (a := d.timeId) ?_
  refine List.mem_map_of_mem _ ?_
  exact List.mem_filter.mpr ⟨hd, by simp [hk]⟩

/-- When at least one dimension row matches, the left join contributes
only real (non-null) surrogate keys. -/
theorem matchIds_all_some (ids : List Nat) (h : ids ≠ []) :
    ∀ x ∈ matchIds ids, x ≠ none := by
  intro x hx
  unfold matchIds at hx
  rw [if_neg h] at hx
  rcases List.mem_map.mp hx with ⟨k, _, rfl⟩
  exact fun hn => Option.noConfusion hn

/-- Every assigned fact row carries the surrogate keys of one joined
core row. -/
theorem factAssign_mem :
    ∀ (n : Nat) (cores : List FactCore) (f : FactRow), f ∈ factAssign n cores →
      ∃ core ∈ cores, f.locationId = core.locationId ∧ f.vehicleId = core.vehicleId ∧
        f.utilityId = core.utilityId ∧ f.timeId = core.timeId := by
  intro n cores
  induction cores generalizing n with
  | nil => intro f hf; cases hf
  | cons x xs ih =>
    intro f hf
    rcases List.mem_cons.mp hf with rfl | hf'
    · exact ⟨x, List.mem_cons_self x _, rfl, rfl, rfl, rfl⟩
    · rcases ih (n + 1) f hf' with ⟨core, hcore, h1, h2, h3, h4⟩
      exact ⟨core, List.mem_cons_of_mem _ hcore, h1, h2, h3, h4⟩

/-- Every joined core row comes from one cleaned row, with each of its
four surrogate keys drawn from that row's own left join. -/
theorem factCores_decomp (cl : List CleanedRow) (dt : DimTables) (core : FactCore)
    (h : core ∈ factCores cl dt) :
    ∃ c ∈ cl, core.locationId ∈ matchIds (locMatches dt c) ∧
      core.vehicleId ∈ matchIds (vehMatches dt c) ∧
      core.utilityId ∈ matchIds (utilMatches dt c) ∧
      core.timeId ∈ matchIds (timeMatches dt c) := by
  rcases List.mem_flatMap.mp h with ⟨c, hc, h2⟩
  rcases List.mem_flatMap.mp h2 with ⟨lid, hl, h3⟩
  rcases List.mem_flatMap.mp h3 with ⟨vid, hv, h4⟩
  rcases List.mem_flatMap.mp h4 with ⟨uid, hu, h5⟩
  rcases List.mem_map.mp h5 with ⟨tid, ht, rfl⟩
  exact ⟨c, hc, hl, hv, hu, ht⟩

/-!
The claims.
-/

/-- C1: the claim states that for every input the fact table has
exactly as many rows as the cleaned table.  The code violates this:
`_create_location_dimension` deduplicates on seven columns including
`Vehicle Location`, while `_create_fact_table` joins `dim_location` on
only six, so two cleaned rows agreeing on the six join columns but
holding different `Vehicle Location` strings leave two dimension rows
with the same join key and the left join fans out.  Evaluated at that
failing input: 2 cleaned rows, a location dimension with 2 rows sharing
one six-column key, and a 4-row fact table. -/
theorem claim1_location_join_fanout :
    (cleanAndTransformTable 2025 fanFixture).length = 2 ∧
    (createLocationDimension (cleanAndTransformTable 2025 fanFixture)).length = 2 ∧
    (createVehicleDimension (cleanAndTransformTable 2025 fanFixture)).length = 1 ∧
    (createUtilityDimension (cleanAndTransformTable 2025 fanFixture)).length = 1 ∧
    (createTimeDimension (cleanAndTransformTable 2025 fanFixture)).length = 1 ∧
    (createFactTable (cleanAndTransformTable 2025 fanFixture)
      (buildDimTables (cleanAndTransformTable 2025 fanFixture))).length = 4 := by
  refine ⟨by decide, by decide, by decide, by decide, by decide, by decide⟩

/-- C2, counterexample: on the spec's three-row fixture the vehicle
dimension does not have 2 distinct rows (the three rows carry three
distinct vehicle-type strings — BEV, the filled `'Unknown'`, and PHEV —
so the vehicle dimension has 3 rows). -/
theorem claim2_cx_vehicle_dim_not_two :
    (createVehicleDimension (cleanAndTransformTable 2025 evFixture)).length ≠ 2 := by
  decide

/-- C2, amended: on the three-row fixture, cleaning fills row 2's range
with the median 105 of the two present ranges, fills its msrp with 0
and its type with `'Unknown'` (code 0), keeps row 3's msrp 0, and the
fact table has 3 rows and the time dimension 2 distinct rows — but the
vehicle dimension has 3 distinct rows, not 2. -/
theorem claim2_sample_scenario :
    rangeMedian evFixture = some 105 ∧
    (cleanAndTransformTable 2025 evFixture).map (fun c => c.electricRange) =
      [Val.n 150, Val.n 105, Val.n 60] ∧
    (cleanAndTransformTable 2025 evFixture).map (fun c => c.baseMSRP) =
      [Val.n 40000, Val.n 0, Val.n 0] ∧
    (cleanAndTransformTable 2025 evFixture).map (fun c => c.evType) =
      [Val.s "Battery Electric Vehicle (BEV)", Val.s "Unknown",
        Val.s "Plug-in Hybrid Electric Vehicle (PHEV)"] ∧
    (cleanAndTransformTable 2025 evFixture).map (fun c => c.evTypeCode) =
      [Val.n 1, Val.n 0, Val.n 2] ∧
    (createFactTable (cleanAndTransformTable 2025 evFixture)
      (buildDimTables (cleanAndTransformTable 2025 evFixture))).length = 3 ∧
    (createTimeDimension (cleanAndTransformTable 2025 evFixture)).length = 2 ∧
    (createVehicleDimension (cleanAndTransformTable 2025 evFixture)).length = 3 := by
  refine ⟨by decide, by decide, by decide, by decide, by decide, by decide, by decide,
    by decide⟩

/-- C7: re-running the full pipeline against the same raw input is
idempotent on the warehouse: the load replaces each table of the same
name rather than appending, so every table of the twice-run warehouse
equals the once-run one. -/
theorem claim7_idempotent_rerun (cy : Int) (raw : List RawRow) (w : Warehouse)
    (name : String) :
    runPipeline cy raw (runPipeline cy raw w) name = runPipeline cy raw w name := by
  simp only [runPipeline, loadToWarehouse]
  split_ifs <;> rfl

/-- C8: each stage invoked before its prerequisite — clean/transform
before extract, dimensional-model build before clean/transform, load
before the dimensional model exists — reports the `StateError` of the
spec's taxonomy to the caller and leaves the pipeline state (and, for
the load, the store) unchanged. -/
theorem claim8_state_errors (cy : Int) (st : ETLState) (w : Warehouse) :
    (st.rawData = none → cleanAndTransformStep cy st =
      (st, some (ETLError.stateError "No raw data available. Please extract data first."))) ∧
    (st.cleanedData = none → createDimensionalModelStep st =
      (st, some (ETLError.stateError "No cleaned data available. Please clean data first."))) ∧
    ((st.dimensionTables = none ∨ st.factTable = none) → loadToWarehouseStep st w =
      (w, some (ETLError.stateError
        "No dimensional model available. Please create dimensional model first."))) := by
  refine ⟨?_, ?_, ?_⟩
  · intro h
    unfold cleanAndTransformStep
    rw [h]
  · intro h
    unfold createDimensionalModelStep
    rw [h]
  · intro h
    unfold loadToWarehouseStep
    rcases h with h | h
    · rw [h]
    · rw [h]
      cases hd : st.dimensionTables <;> rfl

/-- C8, witness: on a freshly constructed pipeline object all three
out-of-order calls fail with the `StateError` and change nothing. -/
theorem claim8_witness :
    cleanAndTransformStep 2025 initialETLState =
      (initialETLState,
        some (ETLError.stateError "No raw data available. Please extract data first.")) ∧
    createDimensionalModelStep initialETLState =
      (initialETLState,
        some (ETLError.stateError "No cleaned data available. Please clean data first.")) ∧
    loadToWarehouseStep initialETLState emptyWarehouse =
      (emptyWarehouse, some (ETLError.stateError
        "No dimensional model available. Please create dimensional model first.")) := by
  have h := claim8_state_errors 2025 initialETLState emptyWarehouse
  exact ⟨h.1 rfl, h.2.1 rfl, h.2.2 (Or.inl rfl)⟩

/-- C9, amended: cleaning never drops or adds rows, so the cleaned
table always has exactly the raw table's row count; the Reporter's
retention percentage is exactly 100 for every non-empty input.  (On an
empty input the claim fails: the retention expression divides by the
raw row count and raises instead of reporting 100%.) -/
theorem claim9_row_retention (cy : Int) (raw : List RawRow) :
    (cleanAndTransformTable cy raw).length = raw.length ∧
    (raw ≠ [] → retentionPct raw (cleanAndTransformTable cy raw) = some 100) := by
  constructor
  · unfold cleanAndTransformTable
    exact List.length_map _ _
  · intro h
    have hlen : raw.length ≠ 0 := fun h0 => h (List.length_eq_zero.mp h0)
    have hq : (raw.length : ℚ) ≠ 0 := Nat.cast_ne_zero.mpr hlen
    unfold retentionPct
    rw [if_neg hlen, qMul_eq, qDiv_eq]
    unfold cleanAndTransformTable
    rw [List.length_map, div_self hq, one_mul]

/-- C9, counterexample: on the empty input the retention computation
divides by zero (modelled `none`) instead of yielding 100%. -/
theorem claim9_cx_empty_input :
    retentionPct [] (cleanAndTransformTable 2025 []) ≠ some 100 := by
  decide

/-- C9, witness: on the three-row fixture the row count is preserved
and the retention is exactly 100%. -/
theorem claim9_witness :
    (cleanAndTransformTable 2025 evFixture).length = evFixture.length ∧
    retentionPct evFixture (cleanAndTransformTable 2025 evFixture) = some 100 := by
  have h := claim9_row_retention 2025 evFixture
  exact ⟨h.1, h.2 (by decide)⟩

/-- C3: after cleaning, every categorical field of the fixed list
(county, city, make, model, vehicle-type, eligibility, utility) and
every geographic identifier (postal code, district, census tract) is
non-missing, with missing values replaced by the literal `'Unknown'`;
every missing `Electric Range` is replaced by the median of the
non-missing ranges, and every missing `Base MSRP` by 0. -/
theorem claim3_missing_value_policy (cy : Int) (raw : List RawRow) (r : RawRow)
    (hr : r ∈ raw) :
    cleanRow cy (rangeMedian raw) r ∈ cleanAndTransformTable cy raw ∧
    (cleanRow cy (rangeMedian raw) r).county ≠ Val.null ∧
    (r.county = Val.null → (cleanRow cy (rangeMedian raw) r).county = Val.s "Unknown") ∧
    (cleanRow cy (rangeMedian raw) r).city ≠ Val.null ∧
    (r.city = Val.null → (cleanRow cy (rangeMedian raw) r).city = Val.s "Unknown") ∧
    (cleanRow cy (rangeMedian raw) r).make ≠ Val.null ∧
    (r.make = Val.null → (cleanRow cy (rangeMedian raw) r).make = Val.s "Unknown") ∧
    (cleanRow cy (rangeMedian raw) r).model ≠ Val.null ∧
    (r.model = Val.null → (cleanRow cy (rangeMedian raw) r).model = Val.s "Unknown") ∧
    (cleanRow cy (rangeMedian raw) r).evType ≠ Val.null ∧
    (r.evType = Val.null → (cleanRow cy (rangeMedian raw) r).evType = Val.s "Unknown") ∧
    (cleanRow cy (rangeMedian raw) r).cafvElig ≠ Val.null ∧
    (r.cafvElig = Val.null →
      (cleanRow cy (rangeMedian raw) r).cafvElig = Val.s "Unknown") ∧
    (cleanRow cy (rangeMedian raw) r).electricUtility ≠ Val.null ∧
    (r.electricUtility = Val.null →
      (cleanRow cy (rangeMedian raw) r).electricUtility = Val.s "Unknown") ∧
    (cleanRow cy (rangeMedian raw) r).postalCode ≠ Val.null ∧
    (r.postalCode = Val.null →
      (cleanRow cy (rangeMedian raw) r).postalCode = Val.s "Unknown") ∧
    (cleanRow cy (rangeMedian raw) r).legislativeDistrict ≠ Val.null ∧
    (r.legislativeDistrict = Val.null →
      (cleanRow cy (rangeMedian raw) r).legislativeDistrict = Val.s "Unknown") ∧
    (cleanRow cy (rangeMedian raw) r).censusTract ≠ Val.null ∧
    (r.censusTract = Val.null →
      (cleanRow cy (rangeMedian raw) r).censusTract = Val.s "Unknown") ∧
    (∀ m : ℚ, rangeMedian raw = some m → r.electricRange = Val.null →
      (cleanRow cy (rangeMedian raw) r).electricRange = Val.n m) ∧
    (r.baseMSRP = Val.null → (cleanRow cy (rangeMedian raw) r).baseMSRP = Val.n 0) := by
  refine ⟨List.mem_map_of_mem _ hr,
    fillUnknown_ne_null _, ?_, fillUnknown_ne_null _, ?_, fillUnknown_ne_null _, ?_,
    fillUnknown_ne_null _, ?_, fillUnknown_ne_null _, ?_, fillUnknown_ne_null _, ?_,
    fillUnknown_ne_null _, ?_, fillUnknown_ne_null _, ?_, fillUnknown_ne_null _, ?_,
    fillUnknown_ne_null _, ?_, ?_, ?_⟩
  · intro h
    show fillUnknown r.county = Val.s "Unknown"
    rw [h, fillUnknown_null]
  · intro h
    show fillUnknown r.city = Val.s "Unknown"
    rw [h, fillUnknown_null]
  · intro h
    show fillUnknown r.make = Val.s "Unknown"
    rw [h, fillUnknown_null]
  · intro h
    show fillUnknown r.model = Val.s "Unknown"
    rw [h, fillUnknown_null]
  · intro h
    show fillUnknown r.evType = Val.s "Unknown"
    rw [h, fillUnknown_null]
  · intro h
    show fillUnknown r.cafvElig = Val.s "Unknown"
    rw [h, fillUnknown_null]
  · intro h
    show fillUnknown r.electricUtility = Val.s "Unknown"
    rw [h, fillUnknown_null]
  · intro h
    show fillUnknown r.postalCode = Val.s "Unknown"
    rw [h, fillUnknown_null]
  · intro h
    show fillUnknown r.legislativeDistrict = Val.s "Unknown"
    rw [h, fillUnknown_null]
  · intro h
    show fillUnknown r.censusTract = Val.s "Unknown"
    rw [h, fillUnknown_null]
  · intro m hm h
    show fillMedian (rangeMedian raw) r.electricRange = Val.n m
    rw [hm, h]
    rfl
  · intro h
    show fillZero r.baseMSRP = Val.n 0
    rw [h]
    rfl

/-- C3, witness: on the three-row fixture, the all-missing second row
comes out with its type `'Unknown'`, its range the median 105, and its
msrp 0. -/
theorem claim3_witness :
    cleanRow 2025 (rangeMedian evFixture) evFixRow2 ∈
      cleanAndTransformTable 2025 evFixture ∧
    (cleanRow 2025 (rangeMedian evFixture) evFixRow2).evType = Val.s "Unknown" ∧
    (cleanRow 2025 (rangeMedian evFixture) evFixRow2).electricRange = Val.n 105 ∧
    (cleanRow 2025 (rangeMedian evFixture) evFixRow2).baseMSRP = Val.n 0 := by
  obtain ⟨hmem, _, _, _, _, _, _, _, _, _, hev, _, _, _, _, _, _, _, _, _, _, hrange,
    hmsrp⟩ := claim3_missing_value_policy 2025 evFixture evFixRow2 (by decide)
  exact ⟨hmem, hev rfl, hrange 105 (by decide) rfl, hmsrp rfl⟩

/-- C4: every cleaned row's vehicle-type code is one of 0, 1, 2 and its
eligibility code one of 0, 1, 2, 3; any value outside the respective
fixed lookup — including the `'Unknown'` placeholder — encodes to 0. -/
theorem claim4_codes (cy : Int) (raw : List RawRow) (c : CleanedRow)
    (hc : c ∈ cleanAndTransformTable cy raw) :
    (c.evTypeCode = Val.n 0 ∨ c.evTypeCode = Val.n 1 ∨ c.evTypeCode = Val.n 2) ∧
    (c.cafvCode = Val.n 0 ∨ c.cafvCode = Val.n 1 ∨ c.cafvCode = Val.n 2 ∨
      c.cafvCode = Val.n 3) ∧
    encodeEVType (Val.s "Unknown") = Val.n 0 ∧
    encodeCAFV (Val.s "Unknown") = Val.n 0 ∧
    (∀ v : Val, v ≠ Val.s "Battery Electric Vehicle (BEV)" →
      v ≠ Val.s "Plug-in Hybrid Electric Vehicle (PHEV)" → encodeEVType v = Val.n 0) ∧
    (∀ v : Val, v ≠ Val.s "Clean Alternative Fuel Vehicle Eligible" →
      v ≠ Val.s "Not eligible due to low battery range" →
      v ≠ Val.s "Eligibility unknown as battery range has not been researched" →
      encodeCAFV v = Val.n 0) := by
  rcases List.mem_map.mp hc with ⟨r, hr, rfl⟩
  exact ⟨encodeEVType_mem _, encodeCAFV_mem _, by decide, by decide,
    encodeEVType_default, encodeCAFV_default⟩

/-- C4, witness: the fixture's first cleaned row has its codes inside
the allowed sets. -/
theorem claim4_witness :
    ((cleanRow 2025 (rangeMedian evFixture) evFixRow1).evTypeCode = Val.n 0 ∨
      (cleanRow 2025 (rangeMedian evFixture) evFixRow1).evTypeCode = Val.n 1 ∨
      (cleanRow 2025 (rangeMedian evFixture) evFixRow1).evTypeCode = Val.n 2) ∧
    ((cleanRow 2025 (rangeMedian evFixture) evFixRow1).cafvCode = Val.n 0 ∨
      (cleanRow 2025 (rangeMedian evFixture) evFixRow1).cafvCode = Val.n 1 ∨
      (cleanRow 2025 (rangeMedian evFixture) evFixRow1).cafvCode = Val.n 2 ∨
      (cleanRow 2025 (rangeMedian evFixture) evFixRow1).cafvCode = Val.n 3) := by
  have h := claim4_codes 2025 evFixture
    (cleanRow 2025 (rangeMedian evFixture) evFixRow1) (by decide)
  exact ⟨h.1, h.2.1⟩

/-- C5, amended: for every cleaned row with numeric model year `y`, the
decade field is `⌊y/10⌋*10`; the year category is `'Pre-2015'` for
`0 ≤ y ≤ 2015`, `'2015-2020'` for `2015 < y ≤ 2020`, and `'2021+'` for
`2020 < y ≤ cy+1` — the `pd.cut` bins are right-closed, so the
boundary year 2015 itself falls in `'Pre-2015'` and 2020 in
`'2015-2020'`, not as the claim's inclusive-from-2015 reading states. -/
theorem claim5_decade_and_year_category (cy : Int) (raw : List RawRow)
    (c : CleanedRow) (hc : c ∈ cleanAndTransformTable cy raw) (q : ℚ)
    (hq : c.modelYear = Val.n q) :
    c.modelDecade = Val.n ((⌊q / 10⌋ : ℚ) * 10) ∧
    (0 ≤ q → q ≤ 2015 → c.yearCategory = Val.s "Pre-2015") ∧
    (2015 < q → q ≤ 2020 → c.yearCategory = Val.s "2015-2020") ∧
    (2020 < q → q ≤ (cy : ℚ) + 1 → c.yearCategory = Val.s "2021+") := by
  rcases List.mem_map.mp hc with ⟨r, hr, rfl⟩
  have hry : r.modelYear = Val.n q := hq
  refine ⟨?_, ?_, ?_, ?_⟩
  · show modelDecadeOf r.modelYear = _
    rw [hry]
    show Val.n (qMul ((qFloor (qDiv q 10) : Int) : ℚ) 10) = _
    rw [qMul_eq, qFloor_eq, qDiv_eq]
  · intro h0 h1
    show yearCategoryOf cy r.modelYear = _
    rw [hry]
    show (if q < 0 then Val.null
      else if q ≤ 2015 then Val.s "Pre-2015"
      else if q ≤ 2020 then Val.s "2015-2020"
      else if q ≤ ((cy + 1 : Int) : ℚ) then Val.s "2021+"
      else Val.null) = _
    rw [if_neg (not_lt.mpr h0), if_pos h1]
  · intro h0 h1
    show yearCategoryOf cy r.modelYear = _
    rw [hry]
    show (if q < 0 then Val.null
      else if q ≤ 2015 then Val.s "Pre-2015"
      else if q ≤ 2020 then Val.s "2015-2020"
      else if q ≤ ((cy + 1 : Int) : ℚ) then Val.s "2021+"
      else Val.null) = _
    rw [if_neg (not_lt.mpr (by linarith)), if_neg (not_le.mpr h0), if_pos h1]
  · intro h0 h1
    show yearCategoryOf cy r.modelYear = _
    rw [hry]
    show (if q < 0 then Val.null
      else if q ≤ 2015 then Val.s "Pre-2015"
      else if q ≤ 2020 then Val.s "2015-2020"
      else if q ≤ ((cy + 1 : Int) : ℚ) then Val.s "2021+"
      else Val.null) = _
    rw [if_neg (not_lt.mpr (by linarith)), if_neg (not_le.mpr (by linarith)),
      if_neg (not_le.mpr h0), if_pos (by push_cast; linarith)]

/-- C5, counterexample: a row with model year exactly 2015 is
categorised `'Pre-2015'`, not `'2015-2020'` as the claim states for
years from 2015 through 2020. -/
theorem claim5_cx_year_2015_boundary :
    (cleanAndTransformTable 2025 [yearRow 2015]).map (fun c => c.yearCategory) ≠
      [Val.s "2015-2020"] := by
  decide

/-- C5, witness: a 2016 row lands in `'2015-2020'` and gets decade
2010. -/
theorem claim5_witness :
    (cleanRow 2025 (rangeMedian [yearRow 2016]) (yearRow 2016)).modelDecade =
      Val.n ((⌊(2016 : ℚ) / 10⌋ : ℚ) * 10) ∧
    (cleanRow 2025 (rangeMedian [yearRow 2016]) (yearRow 2016)).yearCategory =
      Val.s "2015-2020" := by
  have h := claim5_decade_and_year_category 2025 [yearRow 2016]
    (cleanRow 2025 (rangeMedian [yearRow 2016]) (yearRow 2016)) (by decide)
    2016 (by decide)
  exact ⟨h.1, h.2.2.1 (by norm_num) (by norm_num)⟩

/-- C6, amended: the geocoordinate string `"POINT (-122.33 47.60)"`
parses to longitude −122.33 and latitude 47.60; a missing cell, the
`'Unknown'` placeholder, a non-string cell, a string with a token count
other than 2, and a string whose first (longitude) token is non-numeric
all leave both coordinates null without raising.  However, when only
the second (latitude) token fails to convert, the longitude has already
been assigned inside the `try` block, so the row keeps a parsed
longitude with a null latitude — not "both null" as the claim states.
Dimension construction completes in every case. -/
theorem claim6_coordinate_parsing :
    parseVehicleLocation (Val.s "POINT (-122.33 47.60)") =
      (some (mkRat (-12233) 100), some (mkRat 238 5)) ∧
    parseVehicleLocation (Val.s "Unknown") = (none, none) ∧
    parseVehicleLocation Val.null = (none, none) ∧
    (∀ q : ℚ, parseVehicleLocation (Val.n q) = (none, none)) ∧
    (∀ x : String, (pointTokens x).length ≠ 2 →
      parseVehicleLocation (Val.s x) = (none, none)) ∧
    (∀ x a b, pointTokens x = [a, b] → pyFloat a = none →
      parseVehicleLocation (Val.s x) = (none, none)) ∧
    (∀ x a b lon, pointTokens x = [a, b] → pyFloat a = some lon → pyFloat b = none →
      parseVehicleLocation (Val.s x) = (some lon, none)) := by
  refine ⟨by decide, by decide, rfl, fun q => rfl, ?_, ?_, ?_⟩
  · intro x hlen
    by_cases hx : x = "Unknown"
    · subst hx
      decide
    · show (if x = "Unknown" then ((none, none) : Option ℚ × Option ℚ)
        else parsePointStr x) = ((none, none) : Option ℚ × Option ℚ)
      rw [if_neg hx]
      unfold parsePointStr
      rcases hts : pointTokens x with _ | ⟨a, _ | ⟨b, _ | _⟩⟩
      · rfl
      · rfl
      · exact absurd (by rw [hts]; rfl) hlen
      · rfl
  · intro x a b hts ha
    by_cases hx : x = "Unknown"
    · subst hx
      rw [show pointTokens "Unknown" = ["Unknown"] from by decide] at hts
      simp at hts
    · show (if x = "Unknown" then ((none, none) : Option ℚ × Option ℚ)
        else parsePointStr x) = ((none, none) : Option ℚ × Option ℚ)
      rw [if_neg hx]
      unfold parsePointStr
      rw [hts]
      show (match pyFloat a, pyFloat b with
        | some lon, some lat => (some lon, some lat)
        | some lon, none => (some lon, none)
        | none, _ => ((none, none) : Option ℚ × Option ℚ)) =
          ((none, none) : Option ℚ × Option ℚ)
      rw [ha]
  · intro x a b lon hts ha hb
    by_cases hx : x = "Unknown"
    · subst hx
      rw [show pointTokens "Unknown" = ["Unknown"] from by decide] at hts
      simp at hts
    · show (if x = "Unknown" then ((none, none) : Option ℚ × Option ℚ)
        else parsePointStr x) = ((some lon, none) : Option ℚ × Option ℚ)
      rw [if_neg hx]
      unfold parsePointStr
      rw [hts]
      show (match pyFloat a, pyFloat b with
        | some lon, some lat => (some lon, some lat)
        | some lon, none => (some lon, none)
        | none, _ => ((none, none) : Option ℚ × Option ℚ)) =
          ((some lon, none) : Option ℚ × Option ℚ)
      rw [ha, hb]

/-- C6, counterexample: on `"POINT (1.5 abc)"` — malformed through its
non-numeric latitude token — the parsed longitude 1.5 is kept, so the
coordinates are not both null. -/
theorem claim6_cx_partial_longitude :
    parseVehicleLocation (Val.s "POINT (1.5 abc)") ≠ (none, none) := by
  decide

/-- C6, witness: a one-token string and a string with a non-numeric
longitude token both end with both coordinates null, and the
partial-latitude-failure input keeps its longitude. -/
theorem claim6_witness :
    parseVehicleLocation (Val.s "garbage") = (none, none) ∧
    parseVehicleLocation (Val.s "POINT (x 47.60)") = (none, none) ∧
    parseVehicleLocation (Val.s "POINT (1.5 abc)") = (some (mkRat 3 2), none) := by
  have h := claim6_coordinate_parsing
  exact ⟨h.2.2.2.2.1 "garbage" (by decide),
    h.2.2.2.2.2.1 "POINT (x 47.60)" "x" "47.60" (by decide) (by decide),
    h.2.2.2.2.2.2 "POINT (1.5 abc)" "1.5" "abc" (mkRat 3 2) (by decide) (by decide)
      (by decide)⟩

/-- C10: every fact row holds non-null `location_id`, `vehicle_id`,
`utility_id` and `time_id`: each dimension is a deduplicated projection
of the very table being joined, so every cleaned row matches at least
one row of each dimension and no left join ever produces a null
surrogate key. -/
theorem claim10_fact_fks_non_null (cy : Int) (raw : List RawRow) (f : FactRow)
    (hf : f ∈ createFactTable (cleanAndTransformTable cy raw)
      (buildDimTables (cleanAndTransformTable cy raw))) :
    f.locationId ≠ none ∧ f.vehicleId ≠ none ∧ f.utilityId ≠ none ∧
      f.timeId ≠ none := by
  rcases factAssign_mem 1 _ f hf with ⟨core, hcore, e1, e2, e3, e4⟩
  rcases factCores_decomp _ _ core hcore with ⟨c, hc, m1, m2, m3, m4⟩
  refine ⟨?_, ?_, ?_, ?_⟩
  · rw [e1]
    exact matchIds_all_some _ (locMatches_ne_nil _ c hc) _ m1
  · rw [e2]
    exact matchIds_all_some _ (vehMatches_ne_nil _ c hc) _ m2
  · rw [e3]
    exact matchIds_all_some _ (utilMatches_ne_nil _ c hc) _ m3
  · rw [e4]
    exact matchIds_all_some _ (timeMatches_ne_nil _ c hc) _ m4

/-- C10, witness: the first fact row of the three-row fixture's
pipeline has a non-null location key. -/
theorem claim10_witness :
    ((createFactTable (cleanAndTransformTable 2025 evFixture)
        (buildDimTables (cleanAndTransformTable 2025 evFixture))).getD 0
      placeholderFactRow).locationId ≠ none := by
  have h := claim10_fact_fks_non_null 2025 evFixture
    ((createFactTable (cleanAndTransformTable 2025 evFixture)
        (buildDimTables (cleanAndTransformTable 2025 evFixture))).getD 0
      placeholderFactRow) (by decide)
  exact h.1
